import Mathlib

namespace Atproto

/-- Errors surfaced by the createAccount pipeline. The first two mirror
InvalidRequestError with an optional error code and AuthRequiredError from
the xrpc layer; generic mirrors a plain thrown JavaScript Error; ext stands
for an arbitrary failure raised by an external collaborator. -/
inductive Err where
  | invalidRequest (msg : String) (code : Option String)
  | authRequired (msg : String)
  | generic (msg : String)
  | ext (tag : String)
  deriving DecidableEq

/-- Decidable equality for outcomes, needed to evaluate runs on concrete
inputs. -/
instance {ε α : Type} [DecidableEq ε] [DecidableEq α] : DecidableEq (Except ε α) := fun x y =>
  match x, y with
  | .ok a, .ok b =>
    if h : a = b then .isTrue (by rw [h]) else .isFalse (by intro hc; cases hc; exact h rfl)
  | .error a, .error b =>
    if h : a = b then .isTrue (by rw [h]) else .isFalse (by intro hc; cases hc; exact h rfl)
  | .ok _, .error _ => .isFalse (by intro hc; cases hc)
  | .error _, .ok _ => .isFalse (by intro hc; cases hc)

/-- A keypair, identified by the public string its did method returns. -/
structure Keypair where
  didId : String
  deriving DecidableEq

/-- JavaScript truthiness for an optional string: undefined and the empty
string are falsy, every other string is truthy. -/
def truthy : Option String → Bool
  | none => false
  | some s => !(s == "")

/-- A PLC style identity operation as carried through the pipeline. -/
structure Operation where
  rotationKeys : List String
  verificationMethods : List (String × String)
  alsoKnownAs : List String
  services : List (String × String × String)
  prev : Option String
  sig : String
  deriving DecidableEq

/-- The createAccount request input body. -/
structure CreateAccountInput where
  did : Option String
  handle : String
  email : Option String
  password : Option String
  inviteCode : Option String
  recoveryKey : Option String
  plcOp : Option Operation
  deriving DecidableEq

/-- The parts of AppContext and its configuration that createAccount reads.
The newPasswordMaxLength field stands for the NEW_PASSWORD_MAX_LENGTH
constant imported from the scrypt helpers. -/
structure Ctx where
  plcRotationKey : Keypair
  recoveryDidKey : Option String
  publicUrl : String
  invitesRequired : Bool
  entrywayPlcRotationKey : Option String
  newPasswordMaxLength : Nat
  deriving DecidableEq

/-- Result of repo.createRepo inside the actor store transaction: the
initial commit of the new repository. -/
structure Commit where
  cid : String
  rev : String
  deriving DecidableEq

/-- Session credentials returned by createAccountAndSession. -/
structure Creds where
  accessJwt : String
  refreshJwt : String
  deriving DecidableEq

/-- A resolved DID document, kept opaque apart from its identifier. -/
structure DidDocument where
  id : String
  deriving DecidableEq

/-- Modelled from the spec: the account status values carried by account
lifecycle events, of which the pipeline emits Active. The enum itself lives
in the account manager, outside the provisioning core. -/
inductive AccountStatus where
  | active
  | deactivated
  deriving DecidableEq

/-- The validated provisioning plan produced by either validator and
consumed by the orchestrator. -/
structure Plan where
  did : String
  handle : String
  email : Option String
  password : Option String
  inviteCode : Option String
  signingKey : Keypair
  plcOp : Option Operation
  deactivated : Bool
  deriving DecidableEq

/-- The input record handed to the createOp operation builder. -/
structure CreateOpInput where
  signingKey : String
  rotationKeys : List String
  handle : String
  pds : String
  signerId : String
  deriving DecidableEq

/-- Result of the createOp operation builder: the derived did together with
the built operation. -/
structure PlcCreateResult where
  did : String
  op : Operation
  deriving DecidableEq

/-- Replace the first occurrence of pat inside a character list, exactly as
the JavaScript String replace method behaves on a plain string pattern: scan
left to right, rewrite the first match, leave the rest untouched. -/
def replaceFirstL (pat repl : List Char) : List Char → List Char
  | [] =>
    if (List.take pat.length ([] : List Char)) == pat then
      repl ++ List.drop pat.length ([] : List Char)
    else []
  | c :: rest =>
    if (List.take pat.length (c :: rest)) == pat then
      repl ++ List.drop pat.length (c :: rest)
    else c :: replaceFirstL pat repl rest

/-- Replace the first occurrence of pat inside s. -/
def replaceFirstStr (s pat repl : String) : String :=
  String.mk (replaceFirstL pat.data repl.data s.data)

/-- The wrapper exported by prism-plc: forward the call to the did-plc
library builder and rewrite the did prefix did:plc: to did:prism:, keeping
every other field of the result unchanged. -/
def createOp (libCreateOp : CreateOpInput → Except Err PlcCreateResult)
    (input : CreateOpInput) : Except Err PlcCreateResult :=
  match libCreateOp input with
  | .error e => .error e
  | .ok result => .ok { did := replaceFirstStr result.did "did:plc:" "did:prism:", op := result.op }

/-- The rotation key list assembled by formatDidAndPlcOp: start from the
service operator key, prepend the configured recovery key when truthy, then
prepend the caller supplied recovery key when truthy. -/
def buildRotationKeys (operatorKey : String) (recoveryDidKey : Option String)
    (inputRecoveryKey : Option String) : List String :=
  let rotationKeys : List String := [operatorKey]
  let rotationKeys :=
    if truthy recoveryDidKey then recoveryDidKey.getD "" :: rotationKeys else rotationKeys
  if truthy inputRecoveryKey then inputRecoveryKey.getD "" :: rotationKeys else rotationKeys

/-- The singleton list held by a truthy optional string, else the empty
list; used to state the shape of buildRotationKeys. -/
def optTruthyList : Option String → List String
  | none => []
  | some s => if s == "" then [] else [s]

/-- The builder input that formatDidAndPlcOp hands to createOp. -/
def mkCreateOpInput (ctx : Ctx) (handle : String) (input : CreateAccountInput)
    (signingKey : Keypair) : CreateOpInput :=
  { signingKey := signingKey.didId
    rotationKeys := buildRotationKeys ctx.plcRotationKey.didId ctx.recoveryDidKey input.recoveryKey
    handle := handle
    pds := ctx.publicUrl
    signerId := ctx.plcRotationKey.didId }

/-- Mint a fresh did and operation for the local trust path. -/
def formatDidAndPlcOp (ctx : Ctx) (libCreateOp : CreateOpInput → Except Err PlcCreateResult)
    (handle : String) (input : CreateAccountInput) (signingKey : Keypair) :
    Except Err PlcCreateResult :=
  createOp libCreateOp (mkCreateOpInput ctx handle input signingKey)

/-- The unsigned ledger transaction envelope. -/
structure PrismUnsignedTransaction where
  did : String
  operation : Operation
  nonce : Nat
  vk : String
  deriving DecidableEq

/-- The signed ledger transaction: the unsigned envelope spread together
with the detached signature. -/
structure PrismTransaction where
  unsigned : PrismUnsignedTransaction
  signature : String
  deriving DecidableEq

/-- Arguments passed to createAccountAndSession. -/
structure AccountArgs where
  did : String
  handle : String
  email : Option String
  password : Option String
  repoCid : String
  repoRev : String
  inviteCode : Option String
  deactivated : Bool
  deriving DecidableEq

/-- Observable calls made by the handler, in program order. -/
inductive Event where
  | actorCreate (did : String)
  | createRepo (did : String)
  | post (tx : PrismTransaction)
  | sleep (ms : Nat)
  | resolveDidDoc (did : String) (forceRefresh : Bool)
  | createAccount (args : AccountArgs)
  | seqIdentity (did : String) (handle : String)
  | seqAccount (did : String) (status : AccountStatus)
  | seqCommit (did : String) (c : Commit)
  | seqSync (did : String) (c : Commit)
  | updateRepoRoot (did : String) (cid : String) (rev : String)
  | clearReserved (keyId : String) (did : String)
  | destroy (did : String)
  deriving DecidableEq

/-- The response body of a successful createAccount call. -/
structure Body where
  handle : String
  did : String
  didDoc : Option DidDocument
  accessJwt : String
  refreshJwt : String
  deriving DecidableEq

/-- Outcomes of the external collaborators consulted by the handler, one
field per call site, so that a run of the handler is a pure function of the
plan and this record. -/
structure HandlerEnv where
  actorCreateRes : Except Err Unit
  createRepoRes : Except Err Commit
  addSignature : PrismUnsignedTransaction → String → String
  postRes : Except Err Unit
  resolveRes : Except Err (Option DidDocument)
  createAccountRes : Except Err Creds
  seqIdentityRes : Except Err Unit
  seqAccountRes : Except Err Unit
  seqCommitRes : Except Err Unit
  seqSyncRes : Except Err Unit
  updateRepoRootRes : Except Err Unit
  clearReservedRes : Except Err Unit
  destroyRes : Except Err Unit

/-- Build the unsigned transaction with nonce 0 and the signer public id as
vk, sign it with that same signer, post it to the ledger endpoint, and on a
2xx wait ten seconds; on a post failure throw a generic error instead. -/
def createAndSendPrismTransaction (env : HandlerEnv) (did : String) (plcOp : Operation)
    (rotationKeySigner : Keypair) : Except Err Unit × List Event :=
  let unsignedTransaction : PrismUnsignedTransaction :=
    { did := did, operation := plcOp, nonce := 0, vk := rotationKeySigner.didId }
  let transaction : PrismTransaction :=
    { unsigned := unsignedTransaction
      signature := env.addSignature unsignedTransaction rotationKeySigner.didId }
  match env.postRes with
  | .ok _ => (.ok (), [.post transaction, .sleep 10000])
  | .error _ =>
    (.error (.generic "Failed to send transaction to Prism server :-( ORBSTACK??"),
      [.post transaction])

/-- Sequencing for a fallible step that already carries its own trace: stop
on error, otherwise run the continuation and append its trace. -/
def pstep {α β : Type} (x : Except Err α × List Event)
    (k : α → Except Err β × List Event) : Except Err β × List Event :=
  match x with
  | (Except.error e, t) => (Except.error e, t)
  | (Except.ok a, t) => ((k a).1, t ++ (k a).2)

/-- A single external call: its observable event paired with its outcome. -/
def call {α : Type} (ev : Event) (x : Except Err α) : Except Err α × List Event :=
  (x, [ev])

/-- The four sequencer calls, skipped entirely for a deactivated plan. -/
def seqBlock (env : HandlerEnv) (plan : Plan) (c : Commit) : Except Err Unit × List Event :=
  if plan.deactivated then (.ok (), [])
  else
    pstep (call (.seqIdentity plan.did plan.handle) env.seqIdentityRes) fun _ =>
    pstep (call (.seqAccount plan.did .active) env.seqAccountRes) fun _ =>
    pstep (call (.seqCommit plan.did c) env.seqCommitRes) fun _ =>
    pstep (call (.seqSync plan.did c) env.seqSyncRes) fun _ =>
    (.ok (), [])

/-- The ledger submission step: invoked only when the plan carries an
operation, and always signed with the service plc rotation key. -/
def submitStep (env : HandlerEnv) (ctx : Ctx) (plan : Plan) : Except Err Unit × List Event :=
  match plan.plcOp with
  | some op => createAndSendPrismTransaction env plan.did op ctx.plcRotationKey
  | none => (.ok (), [])

/-- The tail of the try block after the ledger step: resolve the document,
persist account and session, sequence events, move the repo root, release
the reserved key, then assemble the response body. -/
def restChain (env : HandlerEnv) (plan : Plan) (commit : Commit) :
    Except Err Body × List Event :=
  pstep (call (.resolveDidDoc plan.did true) env.resolveRes) fun didDoc =>
  pstep (call (.createAccount
      { did := plan.did, handle := plan.handle, email := plan.email
        password := plan.password, repoCid := commit.cid, repoRev := commit.rev
        inviteCode := plan.inviteCode, deactivated := plan.deactivated })
      env.createAccountRes) fun creds =>
  pstep (seqBlock env plan commit) fun _ =>
  pstep (call (.updateRepoRoot plan.did commit.cid commit.rev) env.updateRepoRootRes) fun _ =>
  pstep (call (.clearReserved plan.signingKey.didId plan.did) env.clearReservedRes) fun _ =>
  (.ok { handle := plan.handle, did := plan.did, didDoc := didDoc
         accessJwt := creds.accessJwt, refreshJwt := creds.refreshJwt },
    ([] : List Event))

/-- The try block of the handler: create the repository, optionally submit
the ledger transaction, then run the remaining steps. -/
def tryBlock (env : HandlerEnv) (ctx : Ctx) (plan : Plan) : Except Err Body × List Event :=
  pstep (call (.createRepo plan.did) env.createRepoRes) fun commit =>
  pstep (submitStep env ctx plan) fun _ =>
  restChain env plan commit

/-- The full observable outcome of one handler run: the response or error,
the trace of external calls, and whether an actor repository for the did
still exists when the call returns. -/
structure HandlerOut where
  res : Except Err Body
  trace : List Event
  repoExists : Bool
  deriving DecidableEq

/-- The createAccount handler body after validation: create the actor
store, run the try block, and on any failure inside the try block destroy
the actor store before re-raising; a failing destroy raises its own error
instead and leaves the repository in place. -/
def handler (env : HandlerEnv) (ctx : Ctx) (plan : Plan) : HandlerOut :=
  match env.actorCreateRes with
  | .error e => { res := .error e, trace := [.actorCreate plan.did], repoExists := false }
  | .ok _ =>
    match tryBlock env ctx plan with
    | (.ok b, t) =>
      { res := .ok b, trace := .actorCreate plan.did :: t, repoExists := true }
    | (.error e, t) =>
      match env.destroyRes with
      | .ok _ =>
        { res := .error e
          trace := .actorCreate plan.did :: (t ++ [.destroy plan.did])
          repoExists := false }
      | .error d =>
        { res := .error d
          trace := .actorCreate plan.did :: (t ++ [.destroy plan.did])
          repoExists := true }

/-- Extract a posted transaction from an event. -/
def getPost : Event → Option PrismTransaction
  | .post tx => some tx
  | _ => none

/-- All ledger transactions posted along a trace. -/
def posts (t : List Event) : List PrismTransaction :=
  t.filterMap getPost

/-- Whether an event is one of the four sequencer calls. -/
def isSeqEvt : Event → Bool
  | .seqIdentity _ _ => true
  | .seqAccount _ _ => true
  | .seqCommit _ _ => true
  | .seqSync _ _ => true
  | _ => false

/-- The subsequence of sequencer calls along a trace. -/
def seqEvts (t : List Event) : List Event :=
  t.filter isSeqEvt

/-- Extract a createAccountAndSession call from an event. -/
def getAccountEvt : Event → Option AccountArgs
  | .createAccount args => some args
  | _ => none

/-- All account creation calls along a trace. -/
def accountEvts (t : List Event) : List AccountArgs :=
  t.filterMap getAccountEvt

/-- Extract an updateRepoRoot call from an event. -/
def getRepoRootEvt : Event → Option (String × String × String)
  | .updateRepoRoot d c r => some (d, c, r)
  | _ => none

/-- All repo root updates along a trace. -/
def repoRootEvts (t : List Event) : List (String × String × String) :=
  t.filterMap getRepoRootEvt

/-- Resolved atproto data extracted from a DID document by the identity
library: did, signing key, handle and pds endpoint. -/
structure AtprotoData where
  did : String
  signingKey : String
  handle : String
  pds : String
  deriving DecidableEq

/-- The locally expected values a DID document must match. -/
structure ExpectedAtpData where
  handle : String
  pds : String
  signingKey : String
  deriving DecidableEq

/-- Check the resolved document data against the locally expected handle,
pds endpoint and signing key; each mismatch is an IncompatibleDidDoc
error. -/
def validateAtprotoData (data : AtprotoData) (expected : ExpectedAtpData) : Except Err Unit :=
  if data.handle ≠ expected.handle then
    .error (.invalidRequest "provided handle does not match DID document handle"
      (some "IncompatibleDidDoc"))
  else if data.pds ≠ expected.pds then
    .error (.invalidRequest "DID document pds endpoint does not match service endpoint"
      (some "IncompatibleDidDoc"))
  else if data.signingKey ≠ expected.signingKey then
    .error (.invalidRequest "DID document signing key does not match service signing key"
      (some "IncompatibleDidDoc"))
  else .ok ()

/-- Checks performed by the entryway validator, in program order; sigCheck
records the rotation keys handed to the signature verifier. -/
inductive VEvent where
  | schemaCheck
  | validOpCheck
  | sigCheck (keys : List String)
  deriving DecidableEq

/-- Outcomes of the external calls made by the entryway validator. -/
structure EntrywayEnv where
  baseNormalizeRes : Except Err String
  schemaOk : Operation → Bool
  assureValidOpRes : Except Err Unit
  assureValidSigRes : Except Err Unit
  atpDataRes : Except Err AtprotoData
  getReservedKeypair : String → Option Keypair

/-- The entryway trust validator: require a brought did and operation,
type check the operation, require the configured service rotation key to be
listed among its rotation keys, then verify the operation and its
signature, resolve the document data, locate a reserved signing keypair and
check the document against the locally expected values. -/
def validateInputsForEntrywayPds (ctx : Ctx) (env : EntrywayEnv)
    (input : CreateAccountInput) : Except Err Plan × List VEvent :=
  match env.baseNormalizeRes with
  | .error e => (.error e, [])
  | .ok handle =>
    match input.did, input.plcOp with
    | some d, some op =>
      if d = "" then
        (.error (.invalidRequest "non-entryway pds requires bringing a DID and plcOp" none), [])
      else if !(env.schemaOk op) then
        (.error (.invalidRequest "invalid plc operation" (some "IncompatibleDidDoc")),
          [.schemaCheck])
      else if !(truthy ctx.entrywayPlcRotationKey)
          || !(op.rotationKeys.contains (ctx.entrywayPlcRotationKey.getD "")) then
        (.error (.invalidRequest "PLC DID does not include service rotation key"
            (some "IncompatibleDidDoc")),
          [.schemaCheck])
      else
        match env.assureValidOpRes with
        | .error _ =>
          (.error (.invalidRequest "invalid plc operation" (some "IncompatibleDidDoc")),
            [.schemaCheck, .validOpCheck])
        | .ok _ =>
          match env.assureValidSigRes with
          | .error _ =>
            (.error (.invalidRequest "invalid plc operation" (some "IncompatibleDidDoc")),
              [.schemaCheck, .validOpCheck, .sigCheck [ctx.entrywayPlcRotationKey.getD ""]])
          | .ok _ =>
            match env.atpDataRes with
            | .error e =>
              (.error e,
                [.schemaCheck, .validOpCheck, .sigCheck [ctx.entrywayPlcRotationKey.getD ""]])
            | .ok data =>
              let sk0 : Option Keypair :=
                if truthy input.did then env.getReservedKeypair d else none
              let sk1 : Option Keypair :=
                match sk0 with
                | some s => some s
                | none => env.getReservedKeypair data.signingKey
              match sk1 with
              | none =>
                (.error (.invalidRequest "reserved signing key does not exist" none),
                  [.schemaCheck, .validOpCheck, .sigCheck [ctx.entrywayPlcRotationKey.getD ""]])
              | some signingKey =>
                match validateAtprotoData data
                    { handle := handle, pds := ctx.publicUrl, signingKey := signingKey.didId } with
                | .error e =>
                  (.error e,
                    [.schemaCheck, .validOpCheck, .sigCheck [ctx.entrywayPlcRotationKey.getD ""]])
                | .ok _ =>
                  (.ok { did := d, handle := handle, email := none, password := none
                         inviteCode := none, signingKey := signingKey, plcOp := some op
                         deactivated := false },
                    [.schemaCheck, .validOpCheck, .sigCheck [ctx.entrywayPlcRotationKey.getD ""]])
    | _, _ =>
      (.error (.invalidRequest "non-entryway pds requires bringing a DID and plcOp" none), [])

/-- Outcomes of the external calls made by the local trust validator. -/
structure LocalEnv where
  isEmailValid : String → Bool
  isDisposableEmail : String → Bool
  normalizeHandleRes : Except Err String
  ensureInviteRes : Except Err Unit
  getAccount : String → Option String
  getAccountByEmail : String → Option String
  freshSigningKey : Keypair
  libCreateOp : CreateOpInput → Except Err PlcCreateResult

/-- Whether a supplied password is truthy and longer than the configured
maximum. -/
def passwordTooLong (ctx : Ctx) (password : Option String) : Bool :=
  truthy password && decide ((password.getD "").length > ctx.newPasswordMaxLength)

/-- The local trust validator: reject a brought operation, bound the
password length, enforce invite and email rules, normalize the handle,
check invite availability and handle and email uniqueness, then either
accept the callers own did with a deactivated plan and no operation, or
mint a fresh did and operation. -/
def validateInputsForLocalPds (ctx : Ctx) (env : LocalEnv) (input : CreateAccountInput)
    (requester : Option String) : Except Err Plan :=
  if input.plcOp.isSome then
    .error (.invalidRequest "Unsupported input: \"plcOp\"" none)
  else if passwordTooLong ctx input.password then
    .error (.invalidRequest ("Password too long. Maximum length is "
      ++ toString ctx.newPasswordMaxLength ++ " characters.") none)
  else if ctx.invitesRequired && !(truthy input.inviteCode) then
    .error (.invalidRequest "No invite code provided" (some "InvalidInviteCode"))
  else if !(truthy input.email) then
    .error (.invalidRequest "Email is required" none)
  else if !(env.isEmailValid (input.email.getD ""))
      || env.isDisposableEmail (input.email.getD "") then
    .error (.invalidRequest
      "This email address is not supported, please use a different email." none)
  else
    match env.normalizeHandleRes with
    | .error e => .error e
    | .ok handle =>
      match (if ctx.invitesRequired && truthy input.inviteCode
             then env.ensureInviteRes else .ok ()) with
      | .error e => .error e
      | .ok _ =>
        if (env.getAccount handle).isSome then
          .error (.invalidRequest ("Handle already taken: " ++ handle) none)
        else if (env.getAccountByEmail (input.email.getD "")).isSome then
          .error (.invalidRequest ("Email already taken: " ++ input.email.getD "") none)
        else
          let signingKey := env.freshSigningKey
          if truthy input.did then
            let d := input.did.getD ""
            if requester ≠ some d then
              .error (.authRequired ("Missing auth to create account with did: " ++ d))
            else
              .ok { did := d, handle := handle, email := input.email
                    password := input.password, inviteCode := input.inviteCode
                    signingKey := signingKey, plcOp := none, deactivated := true }
          else
            match formatDidAndPlcOp ctx env.libCreateOp handle input signingKey with
            | .error e => .error e
            | .ok f =>
              .ok { did := f.did, handle := handle, email := input.email
                    password := input.password, inviteCode := input.inviteCode
                    signingKey := signingKey, plcOp := some f.op, deactivated := false }

/-- Modelled from the spec: the settle delay after a ledger submission is
configurable, defaulting to ten seconds; the configuration knob itself does
not exist in the source, which is what the comparison below exposes. -/
def settleDelaySpec (configured : Option Nat) : Nat :=
  configured.getD 10000

/-- Concrete sample data used to evaluate the pipeline on closed inputs. -/
def kOperator : Keypair := { didId := "did:key:zOperator" }

def kSigning : Keypair := { didId := "did:key:zSigning" }

def cCtx : Ctx :=
  { plcRotationKey := kOperator, recoveryDidKey := some "did:key:zRecovery"
    publicUrl := "https://pds.test", invitesRequired := false
    entrywayPlcRotationKey := some "did:key:zEntryway", newPasswordMaxLength := 256 }

def cCommit : Commit := { cid := "bafyCidOne", rev := "revOne" }

def cCreds : Creds := { accessJwt := "accessOne", refreshJwt := "refreshOne" }

def cDoc : DidDocument := { id := "did:prism:abc" }

def cOp : Operation :=
  { rotationKeys := ["did:key:zEntryway"], verificationMethods := [("atproto", "did:key:zSigning")]
    alsoKnownAs := ["at://alice.test"], services := [], prev := none, sig := "sigOne" }

def cOpNoServiceKey : Operation :=
  { rotationKeys := ["did:key:zOther"], verificationMethods := []
    alsoKnownAs := [], services := [], prev := none, sig := "sigTwo" }

def cPlanOp : Plan :=
  { did := "did:prism:abc", handle := "alice.test", email := some "alice@example.com"
    password := some "hunter2pw", inviteCode := none, signingKey := kSigning
    plcOp := some cOp, deactivated := false }

def envAllOk : HandlerEnv :=
  { actorCreateRes := .ok (), createRepoRes := .ok cCommit
    addSignature := fun _ _ => "txsig", postRes := .ok ()
    resolveRes := .ok (some cDoc), createAccountRes := .ok cCreds
    seqIdentityRes := .ok (), seqAccountRes := .ok (), seqCommitRes := .ok ()
    seqSyncRes := .ok (), updateRepoRootRes := .ok (), clearReservedRes := .ok ()
    destroyRes := .ok () }

def envPostFail : HandlerEnv :=
  { envAllOk with postRes := .error (.ext "http 500") }

def envPostAndDestroyFail : HandlerEnv :=
  { envPostFail with destroyRes := .error (.ext "destroy failed") }

def cInputSelfDid : CreateAccountInput :=
  { did := some "did:web:alice.test", handle := "alice.test"
    email := some "alice@example.com", password := some "hunter2pw"
    inviteCode := none, recoveryKey := none, plcOp := none }

def cLocalEnv : LocalEnv :=
  { isEmailValid := fun _ => true, isDisposableEmail := fun _ => false
    normalizeHandleRes := .ok "alice.test", ensureInviteRes := .ok ()
    getAccount := fun _ => none, getAccountByEmail := fun _ => none
    freshSigningKey := kSigning
    libCreateOp := fun _ => .ok { did := "did:plc:abcdef", op := cOp } }

def cEntrywayEnv : EntrywayEnv :=
  { baseNormalizeRes := .ok "alice.test", schemaOk := fun _ => true
    assureValidOpRes := .ok (), assureValidSigRes := .ok ()
    atpDataRes := .ok { did := "did:web:x", signingKey := "did:key:zSigning"
                        handle := "alice.test", pds := "https://pds.test" }
    getReservedKeypair := fun _ => some kSigning }

def cEntrywayInput : CreateAccountInput :=
  { did := some "did:web:x", handle := "alice.test", email := none, password := none
    inviteCode := none, recoveryKey := none, plcOp := some cOpNoServiceKey }

def cInputFresh : CreateAccountInput :=
  { did := none, handle := "alice.test", email := some "alice@example.com"
    password := none, inviteCode := none, recoveryKey := none, plcOp := none }

theorem pstep_error {α β : Type} (e : Err) (t : List Event)
    (k : α → Except Err β × List Event) : pstep (Except.error e, t) k = (Except.error e, t) :=
  rfl

theorem pstep_ok {α β : Type} (a : α) (t : List Event)
    (k : α → Except Err β × List Event) : pstep (Except.ok a, t) k = ((k a).1, t ++ (k a).2) :=
  rfl

theorem posts_nil : posts [] = [] := rfl

theorem posts_cons (e : Event) (t : List Event) :
    posts (e :: t) = (match getPost e with
      | some tx => tx :: posts t
      | none => posts t) := by
  simp [posts, List.filterMap_cons]
  rcases h : getPost e <;> simp [h]

theorem posts_append (a b : List Event) : posts (a ++ b) = posts a ++ posts b := by
  simp [posts, List.filterMap_append]

theorem posts_pstep_nil {α β : Type} (x : Except Err α × List Event)
    (k : α → Except Err β × List Event) (hx : posts x.2 = [])
    (hk : ∀ a, posts (k a).2 = []) : posts (pstep x k).2 = [] := by
  rcases x with ⟨r, t⟩
  simp at hx
  cases r with
  | error e => simpa [pstep] using hx
  | ok a => simp [pstep, posts_append, hx, hk]

theorem posts_seqBlock (env : HandlerEnv) (plan : Plan) (c : Commit) :
    posts (seqBlock env plan c).2 = [] := by
  unfold seqBlock
  split
  · rfl
  · refine posts_pstep_nil _ _ (by simp [call, posts, getPost]) fun _ => ?_
    refine posts_pstep_nil _ _ (by simp [call, posts, getPost]) fun _ => ?_
    refine posts_pstep_nil _ _ (by simp [call, posts, getPost]) fun _ => ?_
    refine posts_pstep_nil _ _ (by simp [call, posts, getPost]) fun _ => ?_
    rfl

theorem posts_restChain (env : HandlerEnv) (plan : Plan) (c : Commit) :
    posts (restChain env plan c).2 = [] := by
  unfold restChain
  refine posts_pstep_nil _ _ (by simp [call, posts, getPost]) fun _ => ?_
  refine posts_pstep_nil _ _ (by simp [call, posts, getPost]) fun _ => ?_
  refine posts_pstep_nil _ _ (posts_seqBlock env plan c) fun _ => ?_
  refine posts_pstep_nil _ _ (by simp [call, posts, getPost]) fun _ => ?_
  refine posts_pstep_nil _ _ (by simp [call, posts, getPost]) fun _ => ?_
  rfl

theorem posts_tryBlock_noOp (env : HandlerEnv) (ctx : Ctx) (plan : Plan)
    (hop : plan.plcOp = none) : posts (tryBlock env ctx plan).2 = [] := by
  unfold tryBlock
  refine posts_pstep_nil _ _ (by simp [call, posts, getPost]) fun commit => ?_
  refine posts_pstep_nil _ _ (by simp [submitStep, hop, posts]) fun _ => ?_
  exact posts_restChain env plan commit

theorem posts_handler_eq (env : HandlerEnv) (ctx : Ctx) (plan : Plan) :
    posts (handler env ctx plan).trace = posts (tryBlock env ctx plan).2 ∨
      posts (handler env ctx plan).trace = [] := by
  unfold handler
  cases hac : env.actorCreateRes with
  | error e => exact Or.inr (by simp [posts, getPost])
  | ok u =>
    rcases htb : tryBlock env ctx plan with ⟨r, t⟩
    cases r with
    | ok b =>
      refine Or.inl ?_
      simp [posts_cons, getPost, htb]
    | error e =>
      refine Or.inl ?_
      cases hd : env.destroyRes <;>
        simp [posts_cons, posts_append, posts_nil, getPost, htb]

theorem posts_handler_ac (env : HandlerEnv) (ctx : Ctx) (plan : Plan)
    (hac : env.actorCreateRes = .ok ()) :
    posts (handler env ctx plan).trace = posts (tryBlock env ctx plan).2 := by
  unfold handler
  rw [hac]
  rcases htb : tryBlock env ctx plan with ⟨r, t⟩
  cases r with
  | ok b => simp [posts_cons, getPost]
  | error e =>
    cases hd : env.destroyRes <;>
      simp [posts_cons, posts_append, posts_nil, getPost]

theorem posts_handler_noOp (env : HandlerEnv) (ctx : Ctx) (plan : Plan)
    (hop : plan.plcOp = none) : posts (handler env ctx plan).trace = [] := by
  rcases posts_handler_eq env ctx plan with h | h
  · rw [h]
    exact posts_tryBlock_noOp env ctx plan hop
  · exact h

theorem truthy_cons (o : Option String) (l : List String) :
    (if truthy o then o.getD "" :: l else l) = optTruthyList o ++ l := by
  rcases o with _ | s
  · simp [truthy, optTruthyList]
  · by_cases hs : s = "" <;> simp [truthy, optTruthyList, hs]

/-- C9 counterexample: when the caller supplied recovery key equals the
service operator key, formatDidAndPlcOp hands the builder the list with the
operator key twice, so the list is not deduplicated. -/
theorem c9_rotationKeys_not_dedup_cex :
    buildRotationKeys "did:key:zOperator" none (some "did:key:zOperator")
        = ["did:key:zOperator", "did:key:zOperator"]
      ∧ ¬ List.Nodup (buildRotationKeys "did:key:zOperator" none (some "did:key:zOperator")) := by
  exact ⟨rfl, by decide⟩

/-- C9 amended: the rotation key list handed to the operation builder is
the caller supplied recovery key when truthy, then the configured recovery
key when truthy, then the service operator key, in that insertion order,
without any deduplication; the operator key is always a member. -/
theorem c9_rotationKeys_order (operatorKey : String)
    (recoveryDidKey inputRecoveryKey : Option String) :
    buildRotationKeys operatorKey recoveryDidKey inputRecoveryKey
        = optTruthyList inputRecoveryKey ++ optTruthyList recoveryDidKey ++ [operatorKey]
      ∧ operatorKey ∈ buildRotationKeys operatorKey recoveryDidKey inputRecoveryKey := by
  have hshape : buildRotationKeys operatorKey recoveryDidKey inputRecoveryKey
      = optTruthyList inputRecoveryKey ++ optTruthyList recoveryDidKey ++ [operatorKey] := by
    simp only [buildRotationKeys, truthy_cons, List.append_assoc]
  refine ⟨hshape, ?_⟩
  rw [hshape]
  simp

theorem take_length_append (l₁ l₂ : List Char) : List.take l₁.length (l₁ ++ l₂) = l₁ := by
  induction l₁ with
  | nil => rfl
  | cons c cs ih => simp [ih]

theorem drop_length_append (l₁ l₂ : List Char) : List.drop l₁.length (l₁ ++ l₂) = l₂ := by
  induction l₁ with
  | nil => rfl
  | cons c cs ih => simp [ih]

theorem replaceFirstL_of_take (pat repl s : List Char) (h : List.take pat.length s = pat) :
    replaceFirstL pat repl s = repl ++ List.drop pat.length s := by
  cases s with
  | nil => simp [replaceFirstL, h]
  | cons c rest => simp [replaceFirstL, h]

theorem replaceFirstL_append (pat repl rest : List Char) :
    replaceFirstL pat repl (pat ++ rest) = repl ++ rest := by
  rw [replaceFirstL_of_take pat repl (pat ++ rest) (take_length_append pat rest),
    drop_length_append]

theorem replaceFirstStr_prism (suffix : String) :
    replaceFirstStr ("did:plc:" ++ suffix) "did:plc:" "did:prism:" = "did:prism:" ++ suffix := by
  rcases suffix with ⟨sl⟩
  show String.mk (replaceFirstL "did:plc:".data "did:prism:".data ("did:plc:".data ++ sl))
      = String.mk ("did:prism:".data ++ sl)
  exact congrArg String.mk (replaceFirstL_append "did:plc:".data "did:prism:".data sl)

/-- C10: whenever the underlying library builder succeeds, the prism-plc
wrapper returns the same record except that the did:plc: prefix of the did
is rewritten to did:prism:, and consequently every did minted through
formatDidAndPlcOp on the local trust path starts with did:prism:. -/
theorem c10_prism_did_rewrite (lib : CreateOpInput → Except Err PlcCreateResult)
    (input : CreateOpInput) (result : PlcCreateResult) (suffix : String)
    (hok : lib input = .ok result) (hdid : result.did = "did:plc:" ++ suffix) :
    createOp lib input = .ok { did := "did:prism:" ++ suffix, op := result.op }
    ∧ ∀ (ctx : Ctx) (handle : String) (inp : CreateAccountInput) (sk : Keypair),
        lib (mkCreateOpInput ctx handle inp sk) = .ok result →
        formatDidAndPlcOp ctx lib handle inp sk
          = .ok { did := "did:prism:" ++ suffix, op := result.op } := by
  have hmain : ∀ i : CreateOpInput, lib i = .ok result →
      createOp lib i = .ok { did := "did:prism:" ++ suffix, op := result.op } := by
    intro i hi
    simp [createOp, hi, hdid, replaceFirstStr_prism]
  exact ⟨hmain input hok, fun ctx handle inp sk hi => hmain _ hi⟩

/-- Witness for C10 at a concrete builder outcome. -/
theorem c10_prism_did_rewrite_witness :
    cLocalEnv.libCreateOp (mkCreateOpInput cCtx "alice.test" cInputFresh kSigning)
        = .ok { did := "did:plc:abcdef", op := cOp }
    ∧ ({ did := "did:plc:abcdef", op := cOp } : PlcCreateResult).did = "did:plc:" ++ "abcdef"
    ∧ (createOp cLocalEnv.libCreateOp (mkCreateOpInput cCtx "alice.test" cInputFresh kSigning)
          = .ok { did := "did:prism:" ++ "abcdef", op := cOp }
        ∧ ∀ (ctx : Ctx) (handle : String) (inp : CreateAccountInput) (sk : Keypair),
            cLocalEnv.libCreateOp (mkCreateOpInput ctx handle inp sk)
              = .ok { did := "did:plc:abcdef", op := cOp } →
            formatDidAndPlcOp ctx cLocalEnv.libCreateOp handle inp sk
              = .ok { did := "did:prism:" ++ "abcdef", op := cOp }) :=
  ⟨rfl, by decide,
    c10_prism_did_rewrite cLocalEnv.libCreateOp
      (mkCreateOpInput cCtx "alice.test" cInputFresh kSigning)
      { did := "did:plc:abcdef", op := cOp } "abcdef" rfl (by decide)⟩

/-- C7 counterexample: the spec side settle delay honours a configured
value, but the submitter sleeps the literal ten seconds even when the
configured delay is zero, so the delay is not configurable. -/
theorem c7_settle_delay_cex :
    settleDelaySpec (some 0) = 0
    ∧ (createAndSendPrismTransaction envAllOk "did:prism:abc" cOp kOperator).2
        = [.post { unsigned := { did := "did:prism:abc", operation := cOp, nonce := 0
                                 vk := "did:key:zOperator" }
                   signature := "txsig" },
           .sleep 10000]
    ∧ (10000 : Nat) ≠ 0 := by
  exact ⟨rfl, rfl, by decide⟩

/-- C7 amended: the submitter posts the transaction exactly once; after a
successful post it blocks for the hard coded ten second delay and returns
success; on a failed post it raises a generic submission error, performs no
sleep and no retry. -/
theorem c7_fixed_delay_no_retry (env : HandlerEnv) (did : String) (op : Operation)
    (signer : Keypair) :
    (posts (createAndSendPrismTransaction env did op signer).2).length = 1
    ∧ (env.postRes = .ok () →
        (createAndSendPrismTransaction env did op signer).1 = .ok ()
        ∧ ∃ tx, (createAndSendPrismTransaction env did op signer).2
            = [.post tx, .sleep 10000])
    ∧ (∀ e, env.postRes = .error e →
        (createAndSendPrismTransaction env did op signer).1
            = .error (.generic "Failed to send transaction to Prism server :-( ORBSTACK??")
        ∧ ∀ ms, Event.sleep ms ∉ (createAndSendPrismTransaction env did op signer).2) := by
  cases hp : env.postRes with
  | ok u =>
    refine ⟨?_, fun _ => ?_, fun e he => ?_⟩
    · simp [createAndSendPrismTransaction, hp, posts_cons, posts_nil, getPost]
    · refine ⟨by simp [createAndSendPrismTransaction, hp], ?_⟩
      refine ⟨{ unsigned := { did := did, operation := op, nonce := 0, vk := signer.didId }
                signature := env.addSignature
                  { did := did, operation := op, nonce := 0, vk := signer.didId }
                  signer.didId }, ?_⟩
      simp [createAndSendPrismTransaction, hp]
    · simp at he
  | error e0 =>
    refine ⟨?_, fun hc => ?_, fun e he => ⟨?_, fun ms => ?_⟩⟩
    · simp [createAndSendPrismTransaction, hp, posts_cons, posts_nil, getPost]
    · simp at hc
    · simp [createAndSendPrismTransaction, hp]
    · simp [createAndSendPrismTransaction, hp]

/-- Witness for the amended C7 at a concrete environment. -/
theorem c7_fixed_delay_no_retry_witness :
    (posts (createAndSendPrismTransaction envAllOk "did:prism:abc" cOp kOperator).2).length = 1
    ∧ (createAndSendPrismTransaction envAllOk "did:prism:abc" cOp kOperator).1 = .ok ()
    ∧ ∃ tx, (createAndSendPrismTransaction envAllOk "did:prism:abc" cOp kOperator).2
        = [.post tx, .sleep 10000] :=
  ⟨(c7_fixed_delay_no_retry envAllOk "did:prism:abc" cOp kOperator).1,
    ((c7_fixed_delay_no_retry envAllOk "did:prism:abc" cOp kOperator).2.1 rfl).1,
    ((c7_fixed_delay_no_retry envAllOk "did:prism:abc" cOp kOperator).2.1 rfl).2⟩

/-- C3: on the entryway path, when the request brings a did and an
operation whose rotation keys do not contain the configured service
rotation key, or no such key is configured, validation fails with an
IncompatibleDidDoc error whatever the signature checker would say, and the
signature check is never reached. -/
theorem c3_entryway_rotation_key_check (ctx : Ctx) (env : EntrywayEnv)
    (input : CreateAccountInput) (h d : String) (op : Operation)
    (hnorm : env.baseNormalizeRes = .ok h)
    (hdid : input.did = some d) (hdne : d ≠ "")
    (hop : input.plcOp = some op)
    (hkey : truthy ctx.entrywayPlcRotationKey = false
        ∨ op.rotationKeys.contains (ctx.entrywayPlcRotationKey.getD "") = false) :
    (∃ msg, (validateInputsForEntrywayPds ctx env input).1
        = .error (.invalidRequest msg (some "IncompatibleDidDoc")))
    ∧ ∀ ks, VEvent.sigCheck ks ∉ (validateInputsForEntrywayPds ctx env input).2 := by
  cases hs : env.schemaOk op with
  | false =>
    refine ⟨⟨"invalid plc operation", ?_⟩, fun ks => ?_⟩ <;>
      simp [validateInputsForEntrywayPds, hnorm, hdid, hop, hdne, hs]
  | true =>
    have hcond : truthy ctx.entrywayPlcRotationKey = false
        ∨ ctx.entrywayPlcRotationKey.getD "" ∉ op.rotationKeys := by
      rcases hkey with hk | hk
      · exact Or.inl hk
      · exact Or.inr (by simpa using hk)
    refine ⟨⟨"PLC DID does not include service rotation key", ?_⟩, fun ks => ?_⟩ <;>
      simp [validateInputsForEntrywayPds, hnorm, hdid, hop, hdne, hs, hcond]

/-- C1: once the local repository for the did exists and any later step of
the try block fails, the handler destroys the repository and re-raises the
original error, so no repository survives the failed attempt when the
destroy itself succeeds. -/
theorem c1_rollback_destroys_and_reraises (env : HandlerEnv) (ctx : Ctx) (plan : Plan)
    (c : Commit) (e : Err)
    (hac : env.actorCreateRes = .ok ())
    (hcr : env.createRepoRes = .ok c)
    (hfail : (tryBlock env ctx plan).1 = .error e)
    (hdes : env.destroyRes = .ok ()) :
    (handler env ctx plan).res = .error e
    ∧ (handler env ctx plan).repoExists = false
    ∧ Event.destroy plan.did ∈ (handler env ctx plan).trace := by
  rcases htb : tryBlock env ctx plan with ⟨r, t⟩
  rw [htb] at hfail
  simp at hfail
  subst hfail
  simp [handler, hac, hdes, htb]

/-- Witness for C1: a concrete run where the ledger post fails after the
repository was created. -/
theorem c1_rollback_destroys_and_reraises_witness :
    envPostFail.actorCreateRes = .ok ()
    ∧ envPostFail.createRepoRes = .ok cCommit
    ∧ (tryBlock envPostFail cCtx cPlanOp).1
        = .error (.generic "Failed to send transaction to Prism server :-( ORBSTACK??")
    ∧ envPostFail.destroyRes = .ok ()
    ∧ ((handler envPostFail cCtx cPlanOp).res
          = .error (.generic "Failed to send transaction to Prism server :-( ORBSTACK??")
      ∧ (handler envPostFail cCtx cPlanOp).repoExists = false
      ∧ Event.destroy cPlanOp.did ∈ (handler envPostFail cCtx cPlanOp).trace) :=
  ⟨rfl, rfl, rfl, rfl,
    c1_rollback_destroys_and_reraises envPostFail cCtx cPlanOp cCommit
      (.generic "Failed to send transaction to Prism server :-( ORBSTACK??") rfl rfl rfl rfl⟩

/-- C2 counterexample: a concrete run where the try block fails with the
ledger submission error and the destroy also fails; the error surfaced to
the caller is the destroy failure, not the original error. -/
theorem c2_destroy_error_cex :
    (tryBlock envPostAndDestroyFail cCtx cPlanOp).1
        = .error (.generic "Failed to send transaction to Prism server :-( ORBSTACK??")
    ∧ (handler envPostAndDestroyFail cCtx cPlanOp).res = .error (.ext "destroy failed")
    ∧ Err.ext "destroy failed"
        ≠ Err.generic "Failed to send transaction to Prism server :-( ORBSTACK??" :=
  ⟨rfl, rfl, by decide⟩

/-- C2 amended: when rollback is triggered and the compensating destroy
itself fails, the destroy error replaces the original error as the one
surfaced to the caller, and the repository survives. -/
theorem c2_destroy_error_replaces_original (env : HandlerEnv) (ctx : Ctx) (plan : Plan)
    (e d : Err)
    (hac : env.actorCreateRes = .ok ())
    (hfail : (tryBlock env ctx plan).1 = .error e)
    (hdes : env.destroyRes = .error d) :
    (handler env ctx plan).res = .error d
    ∧ (handler env ctx plan).repoExists = true
    ∧ Event.destroy plan.did ∈ (handler env ctx plan).trace := by
  rcases htb : tryBlock env ctx plan with ⟨r, t⟩
  rw [htb] at hfail
  simp at hfail
  subst hfail
  simp [handler, hac, hdes, htb]

/-- Witness for the amended C2 at a concrete run. -/
theorem c2_destroy_error_replaces_original_witness :
    envPostAndDestroyFail.actorCreateRes = .ok ()
    ∧ (tryBlock envPostAndDestroyFail cCtx cPlanOp).1
        = .error (.generic "Failed to send transaction to Prism server :-( ORBSTACK??")
    ∧ envPostAndDestroyFail.destroyRes = .error (.ext "destroy failed")
    ∧ ((handler envPostAndDestroyFail cCtx cPlanOp).res = .error (.ext "destroy failed")
      ∧ (handler envPostAndDestroyFail cCtx cPlanOp).repoExists = true
      ∧ Event.destroy cPlanOp.did ∈ (handler envPostAndDestroyFail cCtx cPlanOp).trace) :=
  ⟨rfl, rfl, rfl,
    c2_destroy_error_replaces_original envPostAndDestroyFail cCtx cPlanOp
      (.generic "Failed to send transaction to Prism server :-( ORBSTACK??")
      (.ext "destroy failed") rfl rfl rfl⟩

/-- C4: on a fully successful run, the sequencer receives exactly the four
calls identity, account active, commit, sync in that order when the plan is
not deactivated, and no sequencer call at all when it is. -/
theorem c4_sequencing_order (env : HandlerEnv) (ctx : Ctx) (plan : Plan) (c : Commit)
    (dd : Option DidDocument) (cr : Creds)
    (hac : env.actorCreateRes = .ok ())
    (hcr : env.createRepoRes = .ok c)
    (hpost : env.postRes = .ok ())
    (hres : env.resolveRes = .ok dd)
    (hca : env.createAccountRes = .ok cr)
    (hs1 : env.seqIdentityRes = .ok ())
    (hs2 : env.seqAccountRes = .ok ())
    (hs3 : env.seqCommitRes = .ok ())
    (hs4 : env.seqSyncRes = .ok ())
    (hup : env.updateRepoRootRes = .ok ())
    (hcl : env.clearReservedRes = .ok ()) :
    (handler env ctx plan).res
        = .ok { handle := plan.handle, did := plan.did, didDoc := dd
                accessJwt := cr.accessJwt, refreshJwt := cr.refreshJwt }
    ∧ seqEvts (handler env ctx plan).trace
        = (if plan.deactivated then ([] : List Event)
           else [.seqIdentity plan.did plan.handle, .seqAccount plan.did .active,
                 .seqCommit plan.did c, .seqSync plan.did c]) := by
  cases hop : plan.plcOp <;> cases hde : plan.deactivated <;>
    simp [handler, tryBlock, restChain, submitStep, seqBlock, createAndSendPrismTransaction,
      pstep, call, seqEvts, isSeqEvt,
      hac, hcr, hpost, hres, hca, hs1, hs2, hs3, hs4, hup, hcl, hop, hde]

/-- Witness for C4 at a concrete fully successful run. -/
theorem c4_sequencing_order_witness :
    envAllOk.actorCreateRes = .ok ()
    ∧ envAllOk.createRepoRes = .ok cCommit
    ∧ ((handler envAllOk cCtx cPlanOp).res
          = .ok { handle := cPlanOp.handle, did := cPlanOp.did, didDoc := some cDoc
                  accessJwt := cCreds.accessJwt, refreshJwt := cCreds.refreshJwt }
      ∧ seqEvts (handler envAllOk cCtx cPlanOp).trace
          = (if cPlanOp.deactivated then ([] : List Event)
             else [.seqIdentity cPlanOp.did cPlanOp.handle, .seqAccount cPlanOp.did .active,
                   .seqCommit cPlanOp.did cCommit, .seqSync cPlanOp.did cCommit])) :=
  ⟨rfl, rfl,
    c4_sequencing_order envAllOk cCtx cPlanOp cCommit (some cDoc) cCreds
      rfl rfl rfl rfl rfl rfl rfl rfl rfl rfl rfl⟩

/-- C8: on a fully successful run, the account record is created with
repoCid and repoRev equal to the cid and rev of the commit returned by the
repository creation, and the repo root pointer is updated with that exact
cid and rev. -/
theorem c8_account_and_root_match_commit (env : HandlerEnv) (ctx : Ctx) (plan : Plan)
    (c : Commit) (dd : Option DidDocument) (cr : Creds)
    (hac : env.actorCreateRes = .ok ())
    (hcr : env.createRepoRes = .ok c)
    (hpost : env.postRes = .ok ())
    (hres : env.resolveRes = .ok dd)
    (hca : env.createAccountRes = .ok cr)
    (hs1 : env.seqIdentityRes = .ok ())
    (hs2 : env.seqAccountRes = .ok ())
    (hs3 : env.seqCommitRes = .ok ())
    (hs4 : env.seqSyncRes = .ok ())
    (hup : env.updateRepoRootRes = .ok ())
    (hcl : env.clearReservedRes = .ok ()) :
    (∃ args, accountEvts (handler env ctx plan).trace = [args]
        ∧ args.repoCid = c.cid ∧ args.repoRev = c.rev)
    ∧ repoRootEvts (handler env ctx plan).trace = [(plan.did, c.cid, c.rev)] := by
  refine ⟨⟨{ did := plan.did, handle := plan.handle, email := plan.email
             password := plan.password, repoCid := c.cid, repoRev := c.rev
             inviteCode := plan.inviteCode, deactivated := plan.deactivated }, ?_, rfl, rfl⟩, ?_⟩ <;>
    cases hop : plan.plcOp <;> cases hde : plan.deactivated <;>
    simp [handler, tryBlock, restChain, submitStep, seqBlock, createAndSendPrismTransaction,
      pstep, call, accountEvts, repoRootEvts, getAccountEvt, getRepoRootEvt,
      hac, hcr, hpost, hres, hca, hs1, hs2, hs3, hs4, hup, hcl, hop, hde]

/-- Witness for C8 at a concrete fully successful run. -/
theorem c8_account_and_root_match_commit_witness :
    envAllOk.createRepoRes = .ok cCommit
    ∧ ((∃ args, accountEvts (handler envAllOk cCtx cPlanOp).trace = [args]
          ∧ args.repoCid = cCommit.cid ∧ args.repoRev = cCommit.rev)
      ∧ repoRootEvts (handler envAllOk cCtx cPlanOp).trace
          = [(cPlanOp.did, cCommit.cid, cCommit.rev)]) :=
  ⟨rfl,
    c8_account_and_root_match_commit envAllOk cCtx cPlanOp cCommit (some cDoc) cCreds
      rfl rfl rfl rfl rfl rfl rfl rfl rfl rfl rfl⟩

theorem posts_tryBlock_withOp (env : HandlerEnv) (ctx : Ctx) (plan : Plan) (c : Commit)
    (op : Operation)
    (hcr : env.createRepoRes = .ok c) (hop : plan.plcOp = some op) :
    posts (tryBlock env ctx plan).2
      = [{ unsigned := { did := plan.did, operation := op, nonce := 0
                         vk := ctx.plcRotationKey.didId }
           signature := env.addSignature
             { did := plan.did, operation := op, nonce := 0, vk := ctx.plcRotationKey.didId }
             ctx.plcRotationKey.didId }] := by
  cases hpost : env.postRes <;>
    simp [tryBlock, submitStep, createAndSendPrismTransaction, pstep, call,
      posts_cons, posts_append, posts_nil, getPost, posts_restChain,
      hcr, hop, hpost]

/-- C6: every transaction posted to the ledger during a handler run is
exactly the envelope did, operation, nonce zero, vk equal to the service
plc rotation key public id, signed with that same service key, whichever
validation path produced the plan. -/
theorem c6_transaction_shape (env : HandlerEnv) (ctx : Ctx) (plan : Plan) (c : Commit)
    (op : Operation)
    (hac : env.actorCreateRes = .ok ())
    (hcr : env.createRepoRes = .ok c)
    (hop : plan.plcOp = some op) :
    posts (handler env ctx plan).trace
      = [{ unsigned := { did := plan.did, operation := op, nonce := 0
                         vk := ctx.plcRotationKey.didId }
           signature := env.addSignature
             { did := plan.did, operation := op, nonce := 0, vk := ctx.plcRotationKey.didId }
             ctx.plcRotationKey.didId }] := by
  rw [posts_handler_ac env ctx plan hac]
  exact posts_tryBlock_withOp env ctx plan c op hcr hop

/-- Witness for C6 at a concrete run with a plan carrying an operation. -/
theorem c6_transaction_shape_witness :
    envAllOk.actorCreateRes = .ok ()
    ∧ envAllOk.createRepoRes = .ok cCommit
    ∧ cPlanOp.plcOp = some cOp
    ∧ posts (handler envAllOk cCtx cPlanOp).trace
        = [{ unsigned := { did := cPlanOp.did, operation := cOp, nonce := 0
                           vk := cCtx.plcRotationKey.didId }
             signature := envAllOk.addSignature
               { did := cPlanOp.did, operation := cOp, nonce := 0
                 vk := cCtx.plcRotationKey.didId }
               cCtx.plcRotationKey.didId }] :=
  ⟨rfl, rfl, rfl, c6_transaction_shape envAllOk cCtx cPlanOp cCommit cOp rfl rfl rfl⟩

/-- C5: on the local trust path, when the request supplies a did and no
operation and every earlier check passes, the validator demands that the
authenticated requester be exactly that did, failing with AuthRequired
otherwise; on a match the plan carries the supplied did, no operation and
deactivated true, so the orchestrator never posts to the ledger. -/
theorem c5_local_self_did (ctx : Ctx) (env : LocalEnv) (input : CreateAccountInput)
    (requester : Option String) (h d : String)
    (hplc : input.plcOp = none)
    (hpw : passwordTooLong ctx input.password = false)
    (hinv : ctx.invitesRequired = true →
        truthy input.inviteCode = true ∧ env.ensureInviteRes = .ok ())
    (hem : truthy input.email = true)
    (hev : env.isEmailValid (input.email.getD "") = true)
    (hdisp : env.isDisposableEmail (input.email.getD "") = false)
    (hnorm : env.normalizeHandleRes = .ok h)
    (hht : env.getAccount h = none)
    (het : env.getAccountByEmail (input.email.getD "") = none)
    (hdid : input.did = some d) (hdne : d ≠ "") :
    (requester ≠ some d →
      validateInputsForLocalPds ctx env input requester
        = .error (.authRequired ("Missing auth to create account with did: " ++ d)))
    ∧ (requester = some d →
        validateInputsForLocalPds ctx env input requester
          = .ok { did := d, handle := h, email := input.email, password := input.password
                  inviteCode := input.inviteCode, signingKey := env.freshSigningKey
                  plcOp := none, deactivated := true }
        ∧ ∀ henv hctx,
            posts (handler henv hctx
              { did := d, handle := h, email := input.email, password := input.password
                inviteCode := input.inviteCode, signingKey := env.freshSigningKey
                plcOp := none, deactivated := true }).trace = []) := by
  have hval : ∀ rq : Option String, validateInputsForLocalPds ctx env input rq
      = (if rq ≠ some d then
          .error (.authRequired ("Missing auth to create account with did: " ++ d))
        else
          .ok { did := d, handle := h, email := input.email, password := input.password
                inviteCode := input.inviteCode, signingKey := env.freshSigningKey
                plcOp := none, deactivated := true }) := by
    intro rq
    have htd : truthy (some d) = true := by
      simp [truthy, hdne]
    cases hreq : ctx.invitesRequired with
    | false =>
      simp [validateInputsForLocalPds, hplc, hpw, hem, hev, hdisp, hnorm, hht, het,
        hdid, htd, hreq]
    | true =>
      obtain ⟨hi1, hi2⟩ := hinv hreq
      simp [validateInputsForLocalPds, hplc, hpw, hem, hev, hdisp, hnorm, hht, het,
        hdid, htd, hreq, hi1, hi2]
  constructor
  · intro hne
    rw [hval requester, if_pos hne]
  · intro heq
    refine ⟨?_, fun henv hctx => posts_handler_noOp henv hctx _ rfl⟩
    rw [hval requester, if_neg (by simp [heq])]

/-- Witness for C5 at a concrete self asserted did signup. -/
theorem c5_local_self_did_witness :
    cInputSelfDid.plcOp = none
    ∧ cInputSelfDid.did = some "did:web:alice.test"
    ∧ (((some "did:web:alice.test" : Option String) ≠ some "did:web:alice.test" →
        validateInputsForLocalPds cCtx cLocalEnv cInputSelfDid (some "did:web:alice.test")
          = .error (.authRequired
              ("Missing auth to create account with did: " ++ "did:web:alice.test")))
      ∧ ((some "did:web:alice.test" : Option String) = some "did:web:alice.test" →
        validateInputsForLocalPds cCtx cLocalEnv cInputSelfDid (some "did:web:alice.test")
          = .ok { did := "did:web:alice.test", handle := "alice.test"
                  email := cInputSelfDid.email, password := cInputSelfDid.password
                  inviteCode := cInputSelfDid.inviteCode
                  signingKey := cLocalEnv.freshSigningKey
                  plcOp := none, deactivated := true }
        ∧ ∀ henv hctx,
            posts (handler henv hctx
              { did := "did:web:alice.test", handle := "alice.test"
                email := cInputSelfDid.email, password := cInputSelfDid.password
                inviteCode := cInputSelfDid.inviteCode
                signingKey := cLocalEnv.freshSigningKey
                plcOp := none, deactivated := true }).trace = [])) :=
  ⟨rfl, rfl,
    c5_local_self_did cCtx cLocalEnv cInputSelfDid (some "did:web:alice.test")
      "alice.test" "did:web:alice.test" rfl (by decide) (by decide) rfl rfl rfl rfl rfl rfl
      rfl (by decide)⟩

/-- Witness for C3 at a concrete entryway request. -/
theorem c3_entryway_rotation_key_check_witness :
    cEntrywayEnv.baseNormalizeRes = .ok "alice.test"
    ∧ cEntrywayInput.did = some "did:web:x"
    ∧ cEntrywayInput.plcOp = some cOpNoServiceKey
    ∧ cOpNoServiceKey.rotationKeys.contains (cCtx.entrywayPlcRotationKey.getD "") = false
    ∧ ((∃ msg, (validateInputsForEntrywayPds cCtx cEntrywayEnv cEntrywayInput).1
          = .error (.invalidRequest msg (some "IncompatibleDidDoc")))
      ∧ ∀ ks, VEvent.sigCheck ks ∉ (validateInputsForEntrywayPds cCtx cEntrywayEnv cEntrywayInput).2) :=
  ⟨rfl, rfl, rfl, by decide,
    c3_entryway_rotation_key_check cCtx cEntrywayEnv cEntrywayInput "alice.test" "did:web:x"
      cOpNoServiceKey rfl rfl (by decide) rfl (Or.inr (by decide))⟩

end Atproto
